import Mathlib

/-!
Shallow embedding of the `kubeflow/examples` artifacts relevant to the
xgboost_synthetic example and the CI configuration:

* `src/prow_config.yaml` — the Prow workflow-trigger configuration;
* `src/xgboost_synthetic/build-train-deploy.ipynb` — the notebook defining
  `read_synthetic_input`, `train_model`, `eval_model`, `save_model`, the
  `HousingServe` class and the `train_pipeline` Kubeflow pipeline.

Library calls (xgboost, joblib, numpy) are modelled as parameters of an
environment structure returning `Except PyErr` values, so that the
propagation of library exceptions through the repository's own functions can
be stated.  Observable actions (data generation, fitting, file reads/writes,
prints and log lines) are recorded in an effect trace.
-/

/-- Exceptions raised by the underlying Python libraries.  The repository
defines no error type of its own; `libError` stands for an arbitrary
library-raised exception. -/
inductive PyErr where
  | indexError
  | valueError (msg : String)
  | libError (tag : String)
deriving DecidableEq

/-- Observable actions performed by the notebook's functions.  File contents
written by `joblib.dump` are opaque payloads of the ML library's serializer,
so a `fileWrite` records only the path. -/
inductive Eff where
  | genData (n_samples n_features : ℕ)
  | fitCall (n_estimators : ℕ) (learning_rate : ℚ) (early_stopping_rounds : ℕ)
  | printBestScore (best_score : ℚ) (rounds : ℕ)
  | predictCall
  | logMAE (mae : ℚ)
  | fileRead (path : String)
  | fileWrite (path : String)
  | logModelExport (path : String)
  | printMsg (msg : String)
deriving DecidableEq

/-- Does the effect read a file? -/
def Eff.isFileRead : Eff → Bool
  | .fileRead _ => true
  | _ => false

/-- Does the effect write a file? -/
def Eff.isFileWrite : Eff → Bool
  | .fileWrite _ => true
  | _ => false

/-! ## CI configuration (`src/prow_config.yaml`) -/

/-- Prow job types appearing in `prow_config.yaml`. -/
inductive JobType where
  | presubmit
  | postsubmit
  | periodic
deriving DecidableEq

/-- One entry of the `workflows:` list of `prow_config.yaml`. -/
structure Workflow where
  app_dir : String
  component : String
  name : String
  job_types : List JobType
  include_dirs : Option (List String)
deriving DecidableEq

/-- The six entries of `src/prow_config.yaml`, transcribed verbatim. -/
def workflows : List Workflow :=
  [ { app_dir := "kubeflow/examples/test/workflows"
      component := "workflows"
      name := "unittests"
      job_types := [.presubmit, .postsubmit, .periodic]
      include_dirs := none },
    { app_dir := "kubeflow/examples/test/workflows"
      component := "code_search"
      name := "code-search"
      job_types := [.presubmit, .postsubmit]
      include_dirs := some ["code_search/*"] },
    { app_dir := "kubeflow/examples/test/workflows"
      component := "mnist"
      name := "mnist"
      job_types := [.periodic, .presubmit, .postsubmit]
      include_dirs := some ["mnist/*"] },
    { app_dir := "kubeflow/examples/test/workflows"
      component := "gis"
      name := "gis"
      job_types := [.periodic, .presubmit, .postsubmit]
      include_dirs := some ["github_issue_summarization/*"] },
    { app_dir := "kubeflow/examples/test/workflows"
      component := "xgboost_ames_housing"
      name := "xgboost"
      job_types := [.presubmit, .postsubmit]
      include_dirs := some ["xgboost_ames_housing/*"] },
    { app_dir := "kubeflow/examples/test/workflows"
      component := "pytorch_mnist"
      name := "pytorch-mnist"
      job_types := [.periodic, .presubmit, .postsubmit]
      include_dirs := some ["pytorch_mnist/*"] } ]

/-- A changed file path, as its list of `/`-separated components. -/
abbrev PathC : Type := List String

/-- Modelled from the spec: `prow_config.yaml` only configures
`kubeflow/testing/py/run_e2e_workflow.py` (a script of another repository),
which the spec summarizes as "CI configuration describing which example
directories trigger which test jobs".  A pattern of the shape `d/*` (one
whose last two characters are `/*`) matches every file strictly below
directory `d` (fnmatch semantics, where `*` also crosses `/`); any other
pattern matches only the identical path. -/
def globMatches (pat : String) (path : PathC) : Bool :=
  if pat.dropRight 2 ++ "/*" == pat then
    match path with
    | [] => false
    | c :: rest => c == pat.dropRight 2 && !rest.isEmpty
  else String.intercalate "/" path == pat

/-- Modelled from the spec: a workflow with no `include_dirs` is triggered by
any change; one with `include_dirs` is triggered exactly when the changed
path matches one of its patterns. -/
def triggers (w : Workflow) (path : PathC) : Bool :=
  match w.include_dirs with
  | none => true
  | some pats => pats.any (fun p => globMatches p path)

/-- Names of the workflows triggered by a change to `path`, in configuration
order. -/
def triggeredNames (path : PathC) : List String :=
  (workflows.filter (fun w => triggers w path)).map Workflow.name

/-! ## The Kubeflow pipeline (`train_pipeline`) -/

/-- A `dsl.ContainerOp` as constructed by the notebook: name, image, command,
plus the GCP secret applied via `gcp.use_gcp_secret` and the working
directory set on the op's container. -/
structure ContainerOp where
  name : String
  image : String
  command : List String
  gcp_secret : Option String
  working_dir : Option String
deriving DecidableEq

/-- A compiled pipeline: its ops and its explicit dependency edges
(`op.after(...)` calls; the notebook makes none). -/
structure Pipeline where
  ops : List ContainerOp
  deps : List (String × String)
deriving DecidableEq

/-- The notebook's `train_pipeline`: one `ContainerOp` named `"train"` whose
command runs the preprocessed executable with the `train` argument, with the
`user-gcp-sa` secret applied and working dir `/app`; no other op and no
`after` edge.  `executable` stands for `preprocessor.executable.name` and
`image` for `builder.image_tag`. -/
def train_pipeline (executable image : String) : Pipeline :=
  let command := ["python", executable, "train"]
  let train_op : ContainerOp :=
    { name := "train"
      image := image
      command := command
      gcp_secret := some "user-gcp-sa"
      working_dir := some "/app" }
  { ops := [train_op], deps := [] }

/-! ## Data model of the notebook's ML code

A feature matrix as produced by `sklearn.datasets.make_regression` is a list
of rows; an entry is `Option ℚ`, `none` standing for a missing value (NaN),
so that `SimpleImputer` can be embedded faithfully.  After imputation a
matrix has plain `ℚ` entries. -/

/-- A feature matrix possibly containing missing entries. -/
abbrev MatOpt : Type := List (List (Option ℚ))

/-- A feature matrix with no missing entries (output of the imputer). -/
abbrev MatQ : Type := List (List ℚ)

/-- A label / prediction vector. -/
abbrev Vec : Type := List ℚ

/-! ### Embedding of `sklearn.model_selection.train_test_split` (shuffle=False)

With a float `test_size` t, sklearn computes `n_test = ceil(t * n)` and
`n_train = floor((1 - t) * n)`, raises `ValueError` when t is outside (0, 1)
or the training split would be empty, and with `shuffle=False` takes the
first `n_train` indices as the training set and the next `n_test` as the
test set. -/

/-- Number of test samples: the ceiling of `t * n`. -/
def nTest (n : ℕ) (t : ℚ) : ℕ := (⌈t * (n : ℚ)⌉).toNat

/-- Number of training samples: the floor of `(1 - t) * n`. -/
def nTrain (n : ℕ) (t : ℚ) : ℕ := (⌊(1 - t) * (n : ℚ)⌋).toNat

/-- Embedding of `train_test_split(X, y, test_size=t, shuffle=False)`, returning
`(train_X, test_X, train_y, test_y)`. -/
def train_test_split (X : MatOpt) (y : Vec) (t : ℚ) :
    Except PyErr (MatOpt × MatOpt × Vec × Vec) :=
  if t ≤ 0 ∨ 1 ≤ t then
    .error (.valueError "test_size should be in the (0, 1) range")
  else
    let n := X.length
    if nTrain n t = 0 then
      .error (.valueError "the resulting train set will be empty")
    else
      .ok (X.take (nTrain n t), (X.drop (nTrain n t)).take (nTest n t),
           y.take (nTrain n t), (y.drop (nTrain n t)).take (nTest n t))

/-! ### Embedding of `sklearn.impute.SimpleImputer` (default mean strategy)

`fit` records, per column, the mean of the present values (`none` for an
all-missing column); `transform` replaces each missing entry by the fitted
mean of its column and drops the columns whose recorded statistic is `none`. -/

/-- The present values of column `j`. -/
def colVals (X : MatOpt) (j : ℕ) : List ℚ :=
  X.filterMap (fun row => row.getD j none)

/-- The fitted statistic of column `j`: mean of its present values, `none`
when the column has no present value. -/
def colMean (X : MatOpt) (j : ℕ) : Option ℚ :=
  let vs := colVals X j
  if vs.isEmpty then none else some (vs.sum / (vs.length : ℚ))

/-- Embedding of `SimpleImputer().fit(X)`: the per-column statistics. -/
def imputerFit (X : MatOpt) : List (Option ℚ) :=
  (List.range (X.headD []).length).map (colMean X)

/-- Transform one row: fill missing entries with the column statistic,
dropping columns whose statistic is `none`. -/
def imputeRow (stats : List (Option ℚ)) (row : List (Option ℚ)) : List ℚ :=
  (row.zip stats).filterMap (fun p =>
    match p.2 with
    | none => none
    | some mean => some (p.1.getD mean))

/-- Embedding of `imputer.transform(X)` for a fitted imputer with statistics `stats`. -/
def imputerTransform (stats : List (Option ℚ)) (X : MatOpt) : MatQ :=
  X.map (imputeRow stats)

/-- Strip the `Option` wrapper from a matrix with no missing entries. -/
def unwrapMat (X : MatOpt) : MatQ :=
  X.map (fun row => row.filterMap id)

/-! ### The library environment

Every third-party call the notebook's functions make is a field of `Env`,
returning `Except PyErr` where the call can raise.  `xgb_fit` stands for
`XGBRegressor(n_estimators=..., learning_rate=...).fit(train_X, train_y,
early_stopping_rounds=..., eval_set=...)` (the constructor only stores its
parameters); `best_score` and `best_iteration` are the fitted model's
attributes. -/

/-- The third-party library surface used by the notebook. -/
structure Env (Model : Type) where
  make_regression : (n_samples n_features : ℕ) → (noise : ℚ) →
    Except PyErr (MatOpt × Vec)
  xgb_fit : (n_estimators : ℕ) → (learning_rate : ℚ) →
    (train_X : MatQ) → (train_y : Vec) → (early_stopping_rounds : ℕ) →
    (eval_set : List (MatQ × Vec)) → Except PyErr Model
  best_score : Model → ℚ
  best_iteration : Model → ℕ
  xgb_predict : Model → MatQ → Except PyErr Vec
  mean_absolute_error : Vec → Vec → Except PyErr ℚ
  joblib_dump : Model → String → Except PyErr Unit
  joblib_load : String → Except PyErr Model


/-! ## The notebook's functions -/

/-- Python truthiness of an optional string argument: `not model_file` is
true when the argument is absent (`None`) or the empty string. -/
def pyFalsy : Option String → Bool
  | none => true
  | some s => s.isEmpty

/-- The state of a `HousingServe` object: the fields assigned by
`__init__` (`n_estimators`, `learning_rate`, `model_file`, `model`). -/
structure HousingServe (Model : Type) where
  n_estimators : ℕ
  learning_rate : ℚ
  model_file : String
  model : Option Model

/-- Embedding of `HousingServe.__init__(model_file=None)`.  `envModelFile`
is `os.environ.get("MODEL_FILE")` (`none` when the variable is unset);
`os.getenv` is only reached after the `"MODEL_FILE" in os.environ` check
succeeded, so it returns the variable's value.  Returns the constructed
state together with the trace of `print` calls. -/
def HousingServe.init (Model : Type) (model_file : Option String)
    (envModelFile : Option String) : HousingServe Model × List Eff :=
  let n_estimators := 50
  let learning_rate : ℚ := 1/10
  let resolved : String × List Eff :=
    if pyFalsy model_file then
      match envModelFile with
      | some v =>
        (v, [Eff.printMsg "model_file not supplied; checking environment variable"])
      | none =>
        ("mockup-model.dat", [Eff.printMsg "model_file not supplied; using the default"])
    else
      (model_file.getD "", [])
  ({ n_estimators := n_estimators
     learning_rate := learning_rate
     model_file := resolved.1
     model := none },
   resolved.2 ++ [Eff.printMsg ("model_file=" ++ resolved.1)])

/-- Embedding of `read_synthetic_input(test_size=0.25)`: generate a
200-sample, 5-feature regression dataset, split it without shuffling, fit
the imputer on the training split and transform both splits. -/
def read_synthetic_input {Model : Type} (env : Env Model) (test_size : ℚ) :
    Except PyErr ((MatQ × Vec) × (MatQ × Vec) × List Eff) :=
  match env.make_regression 200 5 (1/10) with
  | .error e => .error e
  | .ok (X, y) =>
    match train_test_split X y test_size with
    | .error e => .error e
    | .ok (train_X0, test_X0, train_y, test_y) =>
      let stats := imputerFit train_X0
      let train_X := imputerTransform stats train_X0
      let test_X := imputerTransform stats test_X0
      .ok ((train_X, train_y), (test_X, test_y), [Eff.genData 200 5])

/-- Embedding of `train_model`: construct an `XGBRegressor` with the given
hyperparameters and fit it with `early_stopping_rounds=40` and the test
split as eval set, then print the best score and round count. -/
def train_model {Model : Type} (env : Env Model)
    (train_X : MatQ) (train_y : Vec) (test_X : MatQ) (test_y : Vec)
    (n_estimators : ℕ) (learning_rate : ℚ) :
    Except PyErr (Model × List Eff) :=
  match env.xgb_fit n_estimators learning_rate train_X train_y 40
      [(test_X, test_y)] with
  | .error e => .error e
  | .ok model =>
    .ok (model,
      [Eff.fitCall n_estimators learning_rate 40,
       Eff.printBestScore (env.best_score model) (env.best_iteration model + 1)])

/-- Embedding of `eval_model`: predict on the test split and log the mean
absolute error. -/
def eval_model {Model : Type} (env : Env Model) (model : Model)
    (test_X : MatQ) (test_y : Vec) : Except PyErr (List Eff) :=
  match env.xgb_predict model test_X with
  | .error e => .error e
  | .ok predictions =>
    match env.mean_absolute_error predictions test_y with
    | .error e => .error e
    | .ok mae => .ok [Eff.predictCall, Eff.logMAE mae]

/-- Embedding of `save_model`: dump the model to `model_file` with one
`joblib.dump` call and log the export. -/
def save_model {Model : Type} (env : Env Model) (model : Model)
    (model_file : String) : Except PyErr (List Eff) :=
  match env.joblib_dump model model_file with
  | .error e => .error e
  | .ok _ => .ok [Eff.fileWrite model_file, Eff.logModelExport model_file]

/-- Embedding of `HousingServe.train`: read the synthetic input (with the
default `test_size=0.25`), train on the training split with the object's
hyperparameters, evaluate on the test split, save to `self.model_file`.
The method assigns no attribute, so the state is unchanged; the result is
the trace of observable actions. -/
def HousingServe.train {Model : Type} (env : Env Model)
    (s : HousingServe Model) : Except PyErr (List Eff) :=
  match read_synthetic_input env (1/4) with
  | .error e => .error e
  | .ok ((train_X, train_y), (test_X, test_y), eff1) =>
    match train_model env train_X train_y test_X test_y
        s.n_estimators s.learning_rate with
    | .error e => .error e
    | .ok (model, eff2) =>
      match eval_model env model test_X test_y with
      | .error e => .error e
      | .ok eff3 =>
        match save_model env model s.model_file with
        | .error e => .error e
        | .ok eff4 => .ok (eff1 ++ eff2 ++ eff3 ++ eff4)

/-- Embedding of `HousingServe.predict(X, feature_names)`: load the model
from `self.model_file` when `self.model` is unset (a loaded model object is
always truthy, so `not self.model` is exactly `self.model is None` here),
predict on `X`, and return `[[prediction.item(0), prediction.item(0)]]`
(`item(0)` raises `IndexError` on an empty prediction).  Returns the value,
the updated state and the trace. -/
def HousingServe.predict {Model : Type} (env : Env Model)
    (s : HousingServe Model) (X : MatQ) :
    Except PyErr (List (List ℚ) × HousingServe Model × List Eff) :=
  let loaded : Except PyErr (Model × HousingServe Model × List Eff) :=
    match s.model with
    | none =>
      match env.joblib_load s.model_file with
      | .error e => .error e
      | .ok m => .ok (m, { s with model := some m }, [Eff.fileRead s.model_file])
    | some m => .ok (m, s, [])
  match loaded with
  | .error e => .error e
  | .ok (m, s', eff0) =>
    match env.xgb_predict m X with
    | .error e => .error e
    | .ok prediction =>
      match prediction.get? 0 with
      | none => .error PyErr.indexError
      | some p0 => .ok ([[p0, p0]], s', eff0 ++ [Eff.predictCall])

/-! ## Concrete fixtures

Concrete environments and states used to evaluate the definitions on
explicit inputs (models are represented by natural numbers). -/

/-- An environment in which every library call succeeds. -/
def okEnv : Env ℕ :=
  { make_regression := fun n_samples n_features _ =>
      .ok (List.replicate n_samples (List.replicate n_features (some 1)),
           List.replicate n_samples 1)
    xgb_fit := fun _ _ _ _ _ _ => .ok 7
    best_score := fun m => (m : ℚ)
    best_iteration := fun m => m
    xgb_predict := fun _ _ => .ok [3, 4, 5]
    mean_absolute_error := fun _ _ => .ok 2
    joblib_dump := fun _ _ => .ok ()
    joblib_load := fun _ => .ok 9 }

/-- A freshly constructed state (no argument, no environment variable). -/
def s0 : HousingServe ℕ := (HousingServe.init ℕ none none).1

/-- A state whose model is already loaded. -/
def sLoaded : HousingServe ℕ := { s0 with model := some 5 }

/-- A concrete 8-row, 2-feature dataset with distinct entries. -/
def X8 : MatOpt :=
  [[some 1, some 11], [some 2, some 12], [some 3, some 13], [some 4, some 14],
   [some 5, some 15], [some 6, some 16], [some 7, some 17], [some 8, some 18]]

/-- Labels for `X8`, in row order. -/
def y8 : Vec := [1, 2, 3, 4, 5, 6, 7, 8]

/-- Like `okEnv`, but data generation yields the concrete dataset `X8`/`y8`
(ignoring the requested shape), so that the pipeline can be evaluated on an
explicit small input. -/
def envSmall : Env ℕ :=
  { okEnv with make_regression := fun _ _ _ => .ok (X8, y8) }

/-- The 200-row, 5-feature all-present matrix `okEnv` generates. -/
def X200 : MatOpt := List.replicate 200 (List.replicate 5 (some 1))

/-- The 200 labels `okEnv` generates. -/
def y200 : Vec := List.replicate 200 1

/-- Like `envSmall`, but `make_regression` raises. -/
def envGenErr : Env ℕ :=
  { envSmall with make_regression := fun _ _ _ => .error (.libError "gen") }

/-- Like `envSmall`, but `fit` raises. -/
def envFitErr : Env ℕ :=
  { envSmall with xgb_fit := fun _ _ _ _ _ _ => .error (.libError "fit") }

/-- Like `envSmall`, but `predict` raises. -/
def envPredErr : Env ℕ :=
  { envSmall with xgb_predict := fun _ _ => .error (.libError "predict") }

/-- Like `envSmall`, but `mean_absolute_error` raises. -/
def envMaeErr : Env ℕ :=
  { envSmall with mean_absolute_error := fun _ _ => .error (.libError "mae") }

/-- Like `envSmall`, but `joblib.dump` raises. -/
def envDumpErr : Env ℕ :=
  { envSmall with joblib_dump := fun _ _ => .error (.libError "dump") }

/-- Like `envSmall`, but `joblib.load` raises. -/
def envLoadErr : Env ℕ :=
  { envSmall with joblib_load := fun _ => .error (.libError "load") }

/-! ## Helper lemmas -/

/-- The sklearn split counts always cover the whole dataset:
`floor((1-t)n) + ceil(tn) = n` for `0 ≤ t ≤ 1`. -/
theorem nTrain_add_nTest (n : ℕ) (t : ℚ) (h1 : 0 ≤ t) (h2 : t ≤ 1) :
    nTrain n t + nTest n t = n := by
  have hr : ((1 : ℚ) - t) * n = ((n : ℤ) : ℚ) + (-(t * n)) := by push_cast; ring
  have hfl : ⌊((1 : ℚ) - t) * n⌋ = n + ⌊-(t * (n : ℚ))⌋ := by
    rw [hr, Int.floor_int_add]
  have hneg : ⌊-(t * (n : ℚ))⌋ = -⌈t * (n : ℚ)⌉ := Int.floor_neg
  have hc0 : 0 ≤ ⌈t * (n : ℚ)⌉ := Int.ceil_nonneg (by positivity)
  have hcn : ⌈t * (n : ℚ)⌉ ≤ n := by
    rw [Int.ceil_le]
    push_cast
    nlinarith
  rw [nTrain, nTest, hfl, hneg]
  omega

/-- Default split sizes on 200 samples: 150 training rows. -/
theorem nTrain_200 : nTrain 200 (1/4) = 150 := by
  rw [nTrain]
  norm_num
  rfl

/-- Default split sizes on 200 samples: 50 test rows. -/
theorem nTest_200 : nTest 200 (1/4) = 50 := by
  rw [nTest]
  norm_num
  rfl

/-- Split sizes for the 8-row fixture: 6 training rows. -/
theorem nTrain_8 : nTrain 8 (1/4) = 6 := by
  rw [nTrain]
  norm_num
  rfl

/-- Split sizes for the 8-row fixture: 2 test rows. -/
theorem nTest_8 : nTest 8 (1/4) = 2 := by
  rw [nTest]
  norm_num
  rfl

/-- On a row with no missing entry, imputation with all-present statistics
of at least the row's width returns the row's own values. -/
theorem imputeRow_all_some (row stats : List (Option ℚ))
    (hlen : row.length ≤ stats.length)
    (hrow : ∀ v ∈ row, v.isSome = true)
    (hstats : ∀ st ∈ stats, st.isSome = true) :
    imputeRow stats row = row.filterMap id := by
  induction row generalizing stats with
  | nil => simp [imputeRow]
  | cons v rt ih =>
    cases stats with
    | nil => simp at hlen
    | cons st stl =>
      obtain ⟨mean, hm⟩ := Option.isSome_iff_exists.mp (hstats st (by simp))
      obtain ⟨a, ha⟩ := Option.isSome_iff_exists.mp (hrow v (by simp))
      subst hm
      subst ha
      have hrec := ih stl (by simpa using hlen)
        (fun w hw => hrow w (by simp [hw]))
        (fun w hw => hstats w (by simp [hw]))
      simp [imputeRow] at hrec ⊢
      exact hrec

/-- The fitted statistics vector has one entry per column of the data. -/
theorem imputerFit_length (X : MatOpt) :
    (imputerFit X).length = (X.headD []).length := by
  simp [imputerFit]

/-- When the first row of the data has no missing entry, every fitted column
statistic is present (each column has at least one value to average). -/
theorem imputerFit_all_some (r : List (Option ℚ)) (tl : List (List (Option ℚ)))
    (hrow : ∀ v ∈ r, v.isSome = true) :
    ∀ st ∈ imputerFit (r :: tl), st.isSome = true := by
  intro st hst
  rw [imputerFit] at hst
  obtain ⟨j, hj, rfl⟩ := List.mem_map.mp hst
  rw [List.mem_range] at hj
  have hhead : (((r :: tl) : MatOpt).headD []) = r := rfl
  rw [hhead] at hj
  obtain ⟨a, ha⟩ := Option.isSome_iff_exists.mp (hrow r[j] (List.getElem_mem hj))
  have hgd : r[j]?.getD none = some a := by
    rw [List.getElem?_eq_getElem hj]
    simpa using ha
  have hcv : ∃ vs, colVals (r :: tl) j = a :: vs := by
    refine ⟨colVals tl j, ?_⟩
    simp [colVals, List.filterMap_cons, hgd]
  obtain ⟨vs, hvs⟩ := hcv
  simp [colMean, hvs]

/-- On data with no missing entry (and all-present statistics covering every
row), the imputer's transform returns the data itself. -/
theorem imputerTransform_all_some (stats : List (Option ℚ)) (X : MatOpt)
    (hstats : ∀ st ∈ stats, st.isSome = true)
    (hrows : ∀ row ∈ X, row.length ≤ stats.length ∧ ∀ v ∈ row, v.isSome = true) :
    imputerTransform stats X = unwrapMat X := by
  rw [imputerTransform, unwrapMat]
  refine List.map_congr_left ?_
  intro row hrow
  exact imputeRow_all_some row stats (hrows row hrow).1 (hrows row hrow).2 hstats

/-- A successful `read_synthetic_input` records exactly the data-generation
action `genData 200 5`. -/
theorem read_synthetic_input_ok_trace {Model : Type} (env : Env Model)
    (t : ℚ) (d1 d2 : MatQ × Vec) (eff : List Eff)
    (h : read_synthetic_input env t = .ok (d1, d2, eff)) :
    eff = [Eff.genData 200 5] := by
  rw [read_synthetic_input] at h
  split at h
  · exact absurd h (by simp)
  · split at h
    · exact absurd h (by simp)
    · simp only [Except.ok.injEq, Prod.mk.injEq] at h
      exact h.2.2.symm

/-- A successful `train_model` returns the fit and best-score print actions,
in order, and nothing else. -/
theorem train_model_ok_trace {Model : Type} (env : Env Model)
    (trX : MatQ) (trY : Vec) (teX : MatQ) (teY : Vec)
    (n : ℕ) (lr : ℚ) (m : Model) (eff : List Eff)
    (h : train_model env trX trY teX teY n lr = .ok (m, eff)) :
    eff = [Eff.fitCall n lr 40,
           Eff.printBestScore (env.best_score m) (env.best_iteration m + 1)] := by
  rw [train_model] at h
  split at h
  · exact absurd h (by simp)
  · simp only [Except.ok.injEq, Prod.mk.injEq] at h
    obtain ⟨rfl, rfl⟩ := h
    rfl

/-- A successful `eval_model` records the predict call and one MAE log line,
and nothing else. -/
theorem eval_model_ok_trace {Model : Type} (env : Env Model) (m : Model)
    (teX : MatQ) (teY : Vec) (eff : List Eff)
    (h : eval_model env m teX teY = .ok eff) :
    ∃ mae, eff = [Eff.predictCall, Eff.logMAE mae] := by
  rw [eval_model] at h
  split at h
  · exact absurd h (by simp)
  · split at h
    · exact absurd h (by simp)
    · simp only [Except.ok.injEq] at h
      exact ⟨_, h.symm⟩

/-- A successful `save_model` records exactly one file write (to
`model_file`) and the export log line. -/
theorem save_model_ok_trace {Model : Type} (env : Env Model) (m : Model)
    (f : String) (eff : List Eff)
    (h : save_model env m f = .ok eff) :
    eff = [Eff.fileWrite f, Eff.logModelExport f] := by
  rw [save_model] at h
  split at h
  · exact absurd h (by simp)
  · simp only [Except.ok.injEq] at h
    exact h.symm

/-- A successful `HousingServe.train` produces exactly the trace: generate,
fit, print best score, predict, log MAE, write the model file, log the
export. -/
theorem train_ok_trace {Model : Type} (env : Env Model)
    (s : HousingServe Model) (eff : List Eff)
    (h : HousingServe.train env s = .ok eff) :
    ∃ m mae,
      eff = [Eff.genData 200 5,
             Eff.fitCall s.n_estimators s.learning_rate 40,
             Eff.printBestScore (env.best_score m) (env.best_iteration m + 1),
             Eff.predictCall, Eff.logMAE mae,
             Eff.fileWrite s.model_file, Eff.logModelExport s.model_file] := by
  rw [HousingServe.train] at h
  split at h
  · exact absurd h (by simp)
  next trX trY teX teY eff1 heq =>
    split at h
    · exact absurd h (by simp)
    next m eff2 ht =>
      split at h
      · exact absurd h (by simp)
      next eff3 he =>
        split at h
        · exact absurd h (by simp)
        next eff4 hsv =>
          simp only [Except.ok.injEq] at h
          obtain ⟨mae, hmae⟩ := eval_model_ok_trace env m teX teY eff3 he
          refine ⟨m, mae, ?_⟩
          rw [← h,
            read_synthetic_input_ok_trace env (1/4) (trX, trY) (teX, teY) eff1 heq,
            train_model_ok_trace env trX trY teX teY s.n_estimators
              s.learning_rate m eff2 ht,
            hmae, save_model_ok_trace env m s.model_file eff4 hsv]
          rfl

/-- Case analysis of a successful `HousingServe.predict`: the returned value
is `[[p0, p0]]` for the first element `p0` of the library's prediction, and
the state/trace follow one of the two branches of the cache check. -/
theorem predict_ok_cases {Model : Type} (env : Env Model)
    (s : HousingServe Model) (X : MatQ) (r : List (List ℚ))
    (s' : HousingServe Model) (eff : List Eff)
    (h : HousingServe.predict env s X = .ok (r, s', eff)) :
    ∃ m pred p0, env.xgb_predict m X = .ok pred ∧ pred.get? 0 = some p0 ∧
      r = [[p0, p0]] ∧
      ((s.model = some m ∧ s' = s ∧ eff = [Eff.predictCall]) ∨
       (s.model = none ∧ env.joblib_load s.model_file = .ok m ∧
        s' = { s with model := some m } ∧
        eff = [Eff.fileRead s.model_file, Eff.predictCall])) := by
  rw [HousingServe.predict] at h
  cases hm : s.model with
  | none =>
    rw [hm] at h
    dsimp only at h
    cases hl : env.joblib_load s.model_file with
    | error e => rw [hl] at h; exact absurd h (by simp)
    | ok m =>
      rw [hl] at h
      dsimp only at h
      cases hp : env.xgb_predict m X with
      | error e => rw [hp] at h; exact absurd h (by simp)
      | ok pred =>
        rw [hp] at h
        dsimp only at h
        cases h0 : pred.get? 0 with
        | none => rw [h0] at h; exact absurd h (by simp)
        | some p0 =>
          rw [h0] at h
          simp only [Except.ok.injEq, Prod.mk.injEq] at h
          exact ⟨m, pred, p0, hp, h0, h.1.symm,
            Or.inr ⟨rfl, rfl, h.2.1.symm, h.2.2.symm⟩⟩
  | some m =>
    rw [hm] at h
    dsimp only at h
    cases hp : env.xgb_predict m X with
    | error e => rw [hp] at h; exact absurd h (by simp)
    | ok pred =>
      rw [hp] at h
      dsimp only at h
      cases h0 : pred.get? 0 with
      | none => rw [h0] at h; exact absurd h (by simp)
      | some p0 =>
        rw [h0] at h
        simp only [Except.ok.injEq, Prod.mk.injEq] at h
        exact ⟨m, pred, p0, hp, h0, h.1.symm,
          Or.inl ⟨rfl, h.2.1.symm, h.2.2.symm⟩⟩

/-! ## Claim theorems -/

/-- C3: the pipeline the notebook compiles and submits is a DAG with exactly
one node: `train_pipeline` defines a single `ContainerOp` named `"train"`
whose command runs the preprocessed executable with the `"train"` argument,
and no other op or dependency edge. -/
theorem train_pipeline_single_node (executable image : String) :
    (train_pipeline executable image).ops =
      [{ name := "train"
         image := image
         command := ["python", executable, "train"]
         gcp_secret := some "user-gcp-sa"
         working_dir := some "/app" }] ∧
    (train_pipeline executable image).deps = [] := by
  exact ⟨rfl, rfl⟩

/-- C8: constructing `HousingServe` with no (or a falsy) `model_file`
argument stores the `MODEL_FILE` environment variable's value when it is
set and `"mockup-model.dat"` otherwise; a truthy argument is stored
unchanged; in every case the initial state has `n_estimators = 50`,
`learning_rate = 0.1` and `model = None`. -/
theorem init_state_spec (Model : Type) (model_file envModelFile : Option String) :
    (HousingServe.init Model model_file envModelFile).1.n_estimators = 50 ∧
    (HousingServe.init Model model_file envModelFile).1.learning_rate = 1/10 ∧
    (HousingServe.init Model model_file envModelFile).1.model = none ∧
    (pyFalsy model_file = true →
      (HousingServe.init Model model_file envModelFile).1.model_file =
        envModelFile.getD "mockup-model.dat") ∧
    (pyFalsy model_file = false →
      some (HousingServe.init Model model_file envModelFile).1.model_file =
        model_file) := by
  refine ⟨rfl, rfl, ?_, ?_, ?_⟩
  · cases hf : pyFalsy model_file <;> cases envModelFile <;>
      simp [HousingServe.init, hf]
  · intro hf
    cases envModelFile <;> simp [HousingServe.init, hf]
  · intro hf
    cases model_file with
    | none => exact absurd hf (by simp [pyFalsy])
    | some v => simp [HousingServe.init, hf]

/-- Witness for C8: concrete constructions exercising the environment
variable, the default, and an explicitly supplied file name. -/
theorem init_state_spec_witness :
    (HousingServe.init ℕ none (some "gs://bucket/model.dat")).1.model_file =
      "gs://bucket/model.dat" ∧
    (HousingServe.init ℕ none none).1.model_file = "mockup-model.dat" ∧
    some (HousingServe.init ℕ (some "trained.dat") none).1.model_file =
      some "trained.dat" ∧
    (HousingServe.init ℕ none none).1.n_estimators = 50 ∧
    (HousingServe.init ℕ none none).1.model = none := by
  refine ⟨?_, ?_, ?_, ?_, ?_⟩
  · have h := (init_state_spec ℕ none (some "gs://bucket/model.dat")).2.2.2.1 rfl
    simpa using h
  · have h := (init_state_spec ℕ none none).2.2.2.1 rfl
    simpa using h
  · exact (init_state_spec ℕ (some "trained.dat") none).2.2.2.2 (by decide)
  · exact (init_state_spec ℕ none none).1
  · exact (init_state_spec ℕ none none).2.2.1

/-- C1: for a state whose model is not yet loaded, `HousingServe.predict`
loads the model with a single `joblib.load` call, calls the library's
predict on `X`, and returns a list of exactly one pair whose two components
both equal the first element of the prediction — whatever the number of
rows of `X`. -/
theorem predict_reshapes_single_pair {Model : Type} (env : Env Model)
    (s : HousingServe Model) (X : MatQ) (m : Model) (pred : Vec) (p0 : ℚ)
    (hnone : s.model = none)
    (hload : env.joblib_load s.model_file = .ok m)
    (hpred : env.xgb_predict m X = .ok pred)
    (h0 : pred.get? 0 = some p0) :
    HousingServe.predict env s X =
      .ok ([[p0, p0]], { s with model := some m },
           [Eff.fileRead s.model_file, Eff.predictCall]) := by
  rw [HousingServe.predict, hnone, hload]
  dsimp only
  rw [hpred]
  dsimp only
  rw [h0]
  rfl

/-- Witness for C1: with a three-row input and a three-element prediction
`[3, 4, 5]`, the result is the single pair `[[3, 3]]`. -/
theorem predict_reshapes_single_pair_witness :
    HousingServe.predict okEnv s0 [[1, 2], [3, 4], [5, 6]] =
      .ok ([[3, 3]], { s0 with model := some 9 },
           [Eff.fileRead s0.model_file, Eff.predictCall]) := by
  exact predict_reshapes_single_pair okEnv s0 [[1, 2], [3, 4], [5, 6]]
    9 [3, 4, 5] 3 rfl rfl rfl rfl

/-- C9: `HousingServe.predict` reads the model file at most once per
object: with a cached model it performs no file read and leaves the state
unchanged; after any successful call the model is non-`None` and
`model_file` is unmodified, no file is written, and a subsequent successful
call performs no file read and leaves the state unchanged again; a call
starting from an unloaded model performs exactly one read, of
`self.model_file`. -/
theorem predict_model_caching (Model : Type) :
    (∀ (env : Env Model) (s : HousingServe Model) (X : MatQ) (m : Model)
       (r : List (List ℚ)) (s' : HousingServe Model) (eff : List Eff),
       s.model = some m → HousingServe.predict env s X = .ok (r, s', eff) →
       s' = s ∧ eff.filter Eff.isFileRead = []) ∧
    (∀ (env : Env Model) (s : HousingServe Model) (X : MatQ)
       (r : List (List ℚ)) (s' : HousingServe Model) (eff : List Eff),
       HousingServe.predict env s X = .ok (r, s', eff) →
       s'.model ≠ none ∧ s'.model_file = s.model_file ∧
       eff.filter Eff.isFileWrite = []) ∧
    (∀ (env : Env Model) (s : HousingServe Model) (X : MatQ)
       (r : List (List ℚ)) (s' : HousingServe Model) (eff : List Eff),
       s.model = none → HousingServe.predict env s X = .ok (r, s', eff) →
       eff.filter Eff.isFileRead = [Eff.fileRead s.model_file]) ∧
    (∀ (env env2 : Env Model) (s : HousingServe Model) (X X2 : MatQ)
       (r : List (List ℚ)) (s' : HousingServe Model) (eff : List Eff)
       (r2 : List (List ℚ)) (s'' : HousingServe Model) (eff2 : List Eff),
       HousingServe.predict env s X = .ok (r, s', eff) →
       HousingServe.predict env2 s' X2 = .ok (r2, s'', eff2) →
       s'' = s' ∧ eff2.filter Eff.isFileRead = []) := by
  have hcached : ∀ (env : Env Model) (s : HousingServe Model) (X : MatQ)
      (m : Model) (r : List (List ℚ)) (s' : HousingServe Model) (eff : List Eff),
      s.model = some m → HousingServe.predict env s X = .ok (r, s', eff) →
      s' = s ∧ eff.filter Eff.isFileRead = [] := by
    intro env s X m r s' eff hm h
    obtain ⟨m', pred, p0, _, _, _, hcase⟩ := predict_ok_cases env s X r s' eff h
    rcases hcase with ⟨_, hs', heff⟩ | ⟨hnone, _, _, _⟩
    · subst heff
      exact ⟨hs', rfl⟩
    · rw [hm] at hnone
      exact absurd hnone (by simp)
  have hpost : ∀ (env : Env Model) (s : HousingServe Model) (X : MatQ)
      (r : List (List ℚ)) (s' : HousingServe Model) (eff : List Eff),
      HousingServe.predict env s X = .ok (r, s', eff) →
      s'.model ≠ none ∧ s'.model_file = s.model_file ∧
      eff.filter Eff.isFileWrite = [] := by
    intro env s X r s' eff h
    obtain ⟨m', pred, p0, _, _, _, hcase⟩ := predict_ok_cases env s X r s' eff h
    rcases hcase with ⟨hm, hs', heff⟩ | ⟨_, _, hs', heff⟩
    · subst hs'
      subst heff
      rw [hm]
      exact ⟨by simp, rfl, rfl⟩
    · subst hs'
      subst heff
      exact ⟨by simp, rfl, rfl⟩
  refine ⟨hcached, hpost, ?_, ?_⟩
  · intro env s X r s' eff hnone h
    obtain ⟨m', pred, p0, _, _, _, hcase⟩ := predict_ok_cases env s X r s' eff h
    rcases hcase with ⟨hm, _, _⟩ | ⟨_, _, _, heff⟩
    · rw [hnone] at hm
      exact absurd hm (by simp)
    · subst heff
      rfl
  · intro env env2 s X X2 r s' eff r2 s'' eff2 h h2
    obtain ⟨hne, _, _⟩ := hpost env s X r s' eff h
    obtain ⟨m', hm'⟩ := Option.ne_none_iff_exists'.mp hne
    exact hcached env2 s' X2 m' r2 s'' eff2 hm' h2

/-- Witness for C9: a first call on a fresh object reads the model file
exactly once and caches a non-`None` model; a call on an already-loaded
object reads nothing and leaves the state unchanged, also when chained
after the first call. -/
theorem predict_model_caching_witness :
    ([Eff.predictCall].filter Eff.isFileRead = ([] : List Eff)) ∧
    (({ s0 with model := some 9 } : HousingServe ℕ).model ≠ none) ∧
    ([Eff.fileRead s0.model_file, Eff.predictCall].filter Eff.isFileRead =
      [Eff.fileRead s0.model_file]) ∧
    (({ s0 with model := some 9 } : HousingServe ℕ) = { s0 with model := some 9 }) := by
  have hfresh : HousingServe.predict okEnv s0 [[1, 2]] =
      .ok ([[3, 3]], { s0 with model := some 9 },
           [Eff.fileRead s0.model_file, Eff.predictCall]) := rfl
  have hagain : HousingServe.predict okEnv ({ s0 with model := some 9 }) [[7, 8]] =
      .ok ([[3, 3]], { s0 with model := some 9 }, [Eff.predictCall]) := rfl
  have h1 := (predict_model_caching ℕ).1 okEnv sLoaded [[1, 2]] 5 [[3, 3]]
    sLoaded [Eff.predictCall] rfl rfl
  have h2 := (predict_model_caching ℕ).2.1 okEnv s0 [[1, 2]] [[3, 3]]
    { s0 with model := some 9 } [Eff.fileRead s0.model_file, Eff.predictCall] hfresh
  have h3 := (predict_model_caching ℕ).2.2.1 okEnv s0 [[1, 2]] [[3, 3]]
    { s0 with model := some 9 } [Eff.fileRead s0.model_file, Eff.predictCall]
    rfl hfresh
  have h4 := (predict_model_caching ℕ).2.2.2 okEnv okEnv s0 [[1, 2]] [[7, 8]]
    [[3, 3]] { s0 with model := some 9 }
    [Eff.fileRead s0.model_file, Eff.predictCall]
    [[3, 3]] { s0 with model := some 9 } [Eff.predictCall] hfresh hagain
  exact ⟨h1.2, h2.1, h3, h4.1⟩

/-- Evaluation of `read_synthetic_input` on the concrete small dataset: the
training split is the first 6 rows in order, the test split the remaining
2 rows. -/
theorem read_small : read_synthetic_input envSmall (1/4) =
    .ok (([[1, 11], [2, 12], [3, 13], [4, 14], [5, 15], [6, 16]],
          [1, 2, 3, 4, 5, 6]),
         ([[7, 17], [8, 18]], [7, 8]), [Eff.genData 200 5]) := by
  have hg : envSmall.make_regression 200 5 (1/10) = .ok (X8, y8) := rfl
  rw [read_synthetic_input, hg]
  dsimp only
  have hs : train_test_split X8 y8 (1/4) =
      .ok ([[some 1, some 11], [some 2, some 12], [some 3, some 13],
            [some 4, some 14], [some 5, some 15], [some 6, some 16]],
           [[some 7, some 17], [some 8, some 18]],
           [1, 2, 3, 4, 5, 6], [7, 8]) := by
    rw [train_test_split]
    rw [if_neg (by norm_num)]
    norm_num [X8, y8, nTrain_8, nTest_8]
  rw [hs]
  dsimp only
  norm_num +decide [imputerFit, imputerTransform, imputeRow, colMean, colVals,
    (show List.range 2 = [0, 1] from rfl), List.getD, Option.getD,
    List.getElem?_cons_zero, List.getElem?_cons_succ]

/-- The generated-data stage is the only part of the environment
`read_synthetic_input` consults. -/
theorem read_synthetic_input_congr {Model : Type} (env env' : Env Model) (t : ℚ)
    (h : env.make_regression 200 5 (1/10) = env'.make_regression 200 5 (1/10)) :
    read_synthetic_input env t = read_synthetic_input env' t := by
  rw [read_synthetic_input, read_synthetic_input, h]

/-- Full evaluation of `HousingServe.train` on the small dataset and a
fresh state. -/
theorem train_envSmall_eval :
    HousingServe.train envSmall s0 =
      .ok ([Eff.genData 200 5, Eff.fitCall 50 (1/10) 40,
            Eff.printBestScore (envSmall.best_score 7) (envSmall.best_iteration 7 + 1),
            Eff.predictCall, Eff.logMAE 2,
            Eff.fileWrite "mockup-model.dat", Eff.logModelExport "mockup-model.dat"]) := by
  rw [HousingServe.train, read_small]
  dsimp only
  rfl

/-- C2: `HousingServe.train` performs, in order: (a) generate the synthetic
dataset via `read_synthetic_input`, (b) fit the model on the training split
via `train_model` and evaluate it on the test split, and (c) save the
fitted model to `self.model_file` — and no other observable action: its
trace is exactly the generation, fit, best-score print, predict, MAE log,
model-file write, and export log, in that order. -/
theorem train_effect_order {Model : Type} (env : Env Model)
    (s : HousingServe Model) (trX teX : MatQ) (trY teY : Vec)
    (eff1 : List Eff) (m : Model) (eff2 : List Eff) (preds : Vec) (mae : ℚ)
    (hread : read_synthetic_input env (1/4) = .ok ((trX, trY), (teX, teY), eff1))
    (hfit : train_model env trX trY teX teY s.n_estimators s.learning_rate =
      .ok (m, eff2))
    (hpred : env.xgb_predict m teX = .ok preds)
    (hmae : env.mean_absolute_error preds teY = .ok mae)
    (hdump : env.joblib_dump m s.model_file = .ok ()) :
    HousingServe.train env s =
      .ok ([Eff.genData 200 5,
            Eff.fitCall s.n_estimators s.learning_rate 40,
            Eff.printBestScore (env.best_score m) (env.best_iteration m + 1),
            Eff.predictCall, Eff.logMAE mae,
            Eff.fileWrite s.model_file, Eff.logModelExport s.model_file]) := by
  have heval : eval_model env m teX teY =
      .ok [Eff.predictCall, Eff.logMAE mae] := by
    rw [eval_model, hpred]
    dsimp only
    rw [hmae]
  have hsave : save_model env m s.model_file =
      .ok [Eff.fileWrite s.model_file, Eff.logModelExport s.model_file] := by
    rw [save_model, hdump]
  rw [HousingServe.train, hread]
  dsimp only
  rw [hfit]
  dsimp only
  rw [heval]
  dsimp only
  rw [hsave]
  dsimp only
  rw [read_synthetic_input_ok_trace env (1/4) (trX, trY) (teX, teY) eff1 hread,
      train_model_ok_trace env trX trY teX teY s.n_estimators s.learning_rate
        m eff2 hfit]
  rfl

/-- Witness for C2: on the concrete small dataset, training emits exactly
the expected trace. -/
theorem train_effect_order_witness :
    HousingServe.train envSmall s0 =
      .ok ([Eff.genData 200 5,
            Eff.fitCall s0.n_estimators s0.learning_rate 40,
            Eff.printBestScore (envSmall.best_score 7) (envSmall.best_iteration 7 + 1),
            Eff.predictCall, Eff.logMAE 2,
            Eff.fileWrite s0.model_file, Eff.logModelExport s0.model_file]) := by
  exact train_effect_order envSmall s0
    [[1, 11], [2, 12], [3, 13], [4, 14], [5, 15], [6, 16]] [[7, 17], [8, 18]]
    [1, 2, 3, 4, 5, 6] [7, 8] [Eff.genData 200 5] 7
    [Eff.fitCall 50 (1/10) 40,
     Eff.printBestScore (envSmall.best_score 7) (envSmall.best_iteration 7 + 1)]
    [3, 4, 5] 2 read_small rfl rfl rfl rfl

/-- C5: the serialized model artifact is a single file: `save_model` writes
exactly one file, the path given by `model_file`, via one `joblib.dump`
call (the written payload is the library serializer's opaque output), and
a successful `HousingServe.train` likewise has exactly one file write in
its whole trace, to `self.model_file`. -/
theorem single_model_file_write (Model : Type) :
    (∀ (env : Env Model) (m : Model) (f : String) (eff : List Eff),
       save_model env m f = .ok eff →
       eff.filter Eff.isFileWrite = [Eff.fileWrite f]) ∧
    (∀ (env : Env Model) (s : HousingServe Model) (eff : List Eff),
       HousingServe.train env s = .ok eff →
       eff.filter Eff.isFileWrite = [Eff.fileWrite s.model_file]) := by
  constructor
  · intro env m f eff h
    rw [save_model_ok_trace env m f eff h]
    rfl
  · intro env s eff h
    obtain ⟨m, mae, heff⟩ := train_ok_trace env s eff h
    subst heff
    rfl

/-- Witness for C5: the concrete save and train traces each contain exactly
one file write, to the model file. -/
theorem single_model_file_write_witness :
    ([Eff.fileWrite "mockup-model.dat",
      Eff.logModelExport "mockup-model.dat"].filter Eff.isFileWrite =
      [Eff.fileWrite "mockup-model.dat"]) ∧
    ([Eff.genData 200 5, Eff.fitCall 50 (1/10) 40,
      Eff.printBestScore (envSmall.best_score 7) (envSmall.best_iteration 7 + 1),
      Eff.predictCall, Eff.logMAE 2,
      Eff.fileWrite "mockup-model.dat",
      Eff.logModelExport "mockup-model.dat"].filter Eff.isFileWrite =
      [Eff.fileWrite s0.model_file]) := by
  constructor
  · exact (single_model_file_write ℕ).1 envSmall 7 "mockup-model.dat"
      [Eff.fileWrite "mockup-model.dat", Eff.logModelExport "mockup-model.dat"] rfl
  · exact (single_model_file_write ℕ).2 envSmall s0
      [Eff.genData 200 5, Eff.fitCall 50 (1/10) 40,
       Eff.printBestScore (envSmall.best_score 7) (envSmall.best_iteration 7 + 1),
       Eff.predictCall, Eff.logMAE 2,
       Eff.fileWrite "mockup-model.dat", Eff.logModelExport "mockup-model.dat"]
      train_envSmall_eval

/-- C4: no operation of the repository catches any exception: an exception
raised by an underlying library call inside `train_model`, `eval_model`,
`save_model`, `HousingServe.predict` or `HousingServe.train` propagates
unchanged to the caller (the repository also defines no error type of its
own — `PyErr` here stands for the libraries' exceptions). -/
theorem no_exception_catching (Model : Type) :
    (∀ (env : Env Model) (trX teX : MatQ) (trY teY : Vec) (n : ℕ) (lr : ℚ)
       (e : PyErr),
       env.xgb_fit n lr trX trY 40 [(teX, teY)] = .error e →
       train_model env trX trY teX teY n lr = .error e) ∧
    (∀ (env : Env Model) (m : Model) (teX : MatQ) (teY : Vec) (e : PyErr),
       env.xgb_predict m teX = .error e →
       eval_model env m teX teY = .error e) ∧
    (∀ (env : Env Model) (m : Model) (teX : MatQ) (teY : Vec) (preds : Vec)
       (e : PyErr),
       env.xgb_predict m teX = .ok preds →
       env.mean_absolute_error preds teY = .error e →
       eval_model env m teX teY = .error e) ∧
    (∀ (env : Env Model) (m : Model) (f : String) (e : PyErr),
       env.joblib_dump m f = .error e →
       save_model env m f = .error e) ∧
    (∀ (env : Env Model) (s : HousingServe Model) (X : MatQ) (e : PyErr),
       s.model = none → env.joblib_load s.model_file = .error e →
       HousingServe.predict env s X = .error e) ∧
    (∀ (env : Env Model) (s : HousingServe Model) (m : Model) (X : MatQ)
       (e : PyErr),
       s.model = some m → env.xgb_predict m X = .error e →
       HousingServe.predict env s X = .error e) ∧
    (∀ (env : Env Model) (s : HousingServe Model) (e : PyErr),
       env.make_regression 200 5 (1/10) = .error e →
       HousingServe.train env s = .error e) ∧
    (∀ (env : Env Model) (s : HousingServe Model) (trX teX : MatQ)
       (trY teY : Vec) (eff1 : List Eff) (e : PyErr),
       read_synthetic_input env (1/4) = .ok ((trX, trY), (teX, teY), eff1) →
       env.xgb_fit s.n_estimators s.learning_rate trX trY 40 [(teX, teY)] =
         .error e →
       HousingServe.train env s = .error e) ∧
    (∀ (env : Env Model) (s : HousingServe Model) (trX teX : MatQ)
       (trY teY : Vec) (eff1 : List Eff) (m : Model) (eff2 : List Eff)
       (e : PyErr),
       read_synthetic_input env (1/4) = .ok ((trX, trY), (teX, teY), eff1) →
       train_model env trX trY teX teY s.n_estimators s.learning_rate =
         .ok (m, eff2) →
       eval_model env m teX teY = .error e →
       HousingServe.train env s = .error e) ∧
    (∀ (env : Env Model) (s : HousingServe Model) (trX teX : MatQ)
       (trY teY : Vec) (eff1 : List Eff) (m : Model) (eff2 eff3 : List Eff)
       (e : PyErr),
       read_synthetic_input env (1/4) = .ok ((trX, trY), (teX, teY), eff1) →
       train_model env trX trY teX teY s.n_estimators s.learning_rate =
         .ok (m, eff2) →
       eval_model env m teX teY = .ok eff3 →
       save_model env m s.model_file = .error e →
       HousingServe.train env s = .error e) := by
  refine ⟨?_, ?_, ?_, ?_, ?_, ?_, ?_, ?_, ?_, ?_⟩
  · intro env trX teX trY teY n lr e h
    rw [train_model, h]
  · intro env m teX teY e h
    rw [eval_model, h]
  · intro env m teX teY preds e h1 h2
    rw [eval_model, h1]
    dsimp only
    rw [h2]
  · intro env m f e h
    rw [save_model, h]
  · intro env s X e hnone h
    rw [HousingServe.predict, hnone, h]
  · intro env s m X e hsome h
    rw [HousingServe.predict, hsome]
    dsimp only
    rw [h]
  · intro env s e h
    rw [HousingServe.train, read_synthetic_input, h]
  · intro env s trX teX trY teY eff1 e hread h
    rw [HousingServe.train, hread]
    dsimp only
    rw [train_model, h]
  · intro env s trX teX trY teY eff1 m eff2 e hread hfit heval
    rw [HousingServe.train, hread]
    dsimp only
    rw [hfit]
    dsimp only
    rw [heval]
  · intro env s trX teX trY teY eff1 m eff2 eff3 e hread hfit heval hsave
    rw [HousingServe.train, hread]
    dsimp only
    rw [hfit]
    dsimp only
    rw [heval]
    dsimp only
    rw [hsave]

/-- Witness for C4: concrete environments in which exactly one library call
raises show the error surfacing unchanged from every operation. -/
theorem no_exception_catching_witness :
    train_model envFitErr [] [] [] [] 5 1 = .error (.libError "fit") ∧
    eval_model envPredErr 7 [] [] = .error (.libError "predict") ∧
    eval_model envMaeErr 7 [] [] = .error (.libError "mae") ∧
    save_model envDumpErr 7 "mockup-model.dat" = .error (.libError "dump") ∧
    HousingServe.predict envLoadErr s0 [[1, 2]] = .error (.libError "load") ∧
    HousingServe.predict envPredErr sLoaded [[1, 2]] =
      .error (.libError "predict") ∧
    HousingServe.train envGenErr s0 = .error (.libError "gen") ∧
    HousingServe.train envFitErr s0 = .error (.libError "fit") ∧
    HousingServe.train envMaeErr s0 = .error (.libError "mae") ∧
    HousingServe.train envDumpErr s0 = .error (.libError "dump") := by
  have h := no_exception_catching ℕ
  have hreadFit : read_synthetic_input envFitErr (1/4) =
      .ok (([[1, 11], [2, 12], [3, 13], [4, 14], [5, 15], [6, 16]],
            [1, 2, 3, 4, 5, 6]),
           ([[7, 17], [8, 18]], [7, 8]), [Eff.genData 200 5]) :=
    (read_synthetic_input_congr envFitErr envSmall (1/4) rfl).trans read_small
  have hreadMae : read_synthetic_input envMaeErr (1/4) =
      .ok (([[1, 11], [2, 12], [3, 13], [4, 14], [5, 15], [6, 16]],
            [1, 2, 3, 4, 5, 6]),
           ([[7, 17], [8, 18]], [7, 8]), [Eff.genData 200 5]) :=
    (read_synthetic_input_congr envMaeErr envSmall (1/4) rfl).trans read_small
  have hreadDump : read_synthetic_input envDumpErr (1/4) =
      .ok (([[1, 11], [2, 12], [3, 13], [4, 14], [5, 15], [6, 16]],
            [1, 2, 3, 4, 5, 6]),
           ([[7, 17], [8, 18]], [7, 8]), [Eff.genData 200 5]) :=
    (read_synthetic_input_congr envDumpErr envSmall (1/4) rfl).trans read_small
  refine ⟨?_, ?_, ?_, ?_, ?_, ?_, ?_, ?_, ?_, ?_⟩
  · exact h.1 envFitErr [] [] [] [] 5 1 (.libError "fit") rfl
  · exact h.2.1 envPredErr 7 [] [] (.libError "predict") rfl
  · exact h.2.2.1 envMaeErr 7 [] [] [3, 4, 5] (.libError "mae") rfl rfl
  · exact h.2.2.2.1 envDumpErr 7 "mockup-model.dat" (.libError "dump") rfl
  · exact h.2.2.2.2.1 envLoadErr s0 [[1, 2]] (.libError "load") rfl rfl
  · exact h.2.2.2.2.2.1 envPredErr sLoaded 5 [[1, 2]] (.libError "predict")
      rfl rfl
  · exact h.2.2.2.2.2.2.1 envGenErr s0 (.libError "gen") rfl
  · exact h.2.2.2.2.2.2.2.1 envFitErr s0
      [[1, 11], [2, 12], [3, 13], [4, 14], [5, 15], [6, 16]]
      [[7, 17], [8, 18]] [1, 2, 3, 4, 5, 6] [7, 8] [Eff.genData 200 5]
      (.libError "fit") hreadFit rfl
  · exact h.2.2.2.2.2.2.2.2.1 envMaeErr s0
      [[1, 11], [2, 12], [3, 13], [4, 14], [5, 15], [6, 16]]
      [[7, 17], [8, 18]] [1, 2, 3, 4, 5, 6] [7, 8] [Eff.genData 200 5] 7
      [Eff.fitCall 50 (1/10) 40,
       Eff.printBestScore (envMaeErr.best_score 7) (envMaeErr.best_iteration 7 + 1)]
      (.libError "mae") hreadMae rfl rfl
  · exact h.2.2.2.2.2.2.2.2.2 envDumpErr s0
      [[1, 11], [2, 12], [3, 13], [4, 14], [5, 15], [6, 16]]
      [[7, 17], [8, 18]] [1, 2, 3, 4, 5, 6] [7, 8] [Eff.genData 200 5] 7
      [Eff.fitCall 50 (1/10) 40,
       Eff.printBestScore (envDumpErr.best_score 7) (envDumpErr.best_iteration 7 + 1)]
      [Eff.predictCall, Eff.logMAE 2]
      (.libError "dump") hreadDump rfl rfl rfl

/-- C6: in the CI configuration, every E2E workflow entry restricts its
trigger via `include_dirs` to paths under its own example's directory only,
while `unittests` has no `include_dirs` and lists all three job types; so a
change confined to one example's directory triggers that example's E2E
workflow and `unittests`, and no other workflow. -/
theorem prow_trigger_isolation :
    (workflows.map (fun w => (w.name, w.include_dirs)) =
      [("unittests", none),
       ("code-search", some ["code_search/*"]),
       ("mnist", some ["mnist/*"]),
       ("gis", some ["github_issue_summarization/*"]),
       ("xgboost", some ["xgboost_ames_housing/*"]),
       ("pytorch-mnist", some ["pytorch_mnist/*"])]) ∧
    ((workflows.map Workflow.job_types).head? =
      some [JobType.presubmit, JobType.postsubmit, JobType.periodic]) ∧
    (∀ rest : List String, rest ≠ [] →
      triggeredNames ("code_search" :: rest) = ["unittests", "code-search"] ∧
      triggeredNames ("mnist" :: rest) = ["unittests", "mnist"] ∧
      triggeredNames ("github_issue_summarization" :: rest) =
        ["unittests", "gis"] ∧
      triggeredNames ("xgboost_ames_housing" :: rest) =
        ["unittests", "xgboost"] ∧
      triggeredNames ("pytorch_mnist" :: rest) =
        ["unittests", "pytorch-mnist"]) := by
  refine ⟨rfl, rfl, ?_⟩
  intro rest hne
  obtain ⟨r, rs, rfl⟩ := List.exists_cons_of_ne_nil hne
  refine ⟨?_, ?_, ?_, ?_, ?_⟩ <;>
    simp +decide [triggeredNames, workflows, triggers, globMatches, List.filter]

/-- Witness for C6: a single changed file inside each example directory
triggers exactly that example's workflow together with `unittests`. -/
theorem prow_trigger_isolation_witness :
    triggeredNames ["code_search", "Dockerfile"] =
      ["unittests", "code-search"] ∧
    triggeredNames ["mnist", "Dockerfile"] = ["unittests", "mnist"] ∧
    triggeredNames ["github_issue_summarization", "Dockerfile"] =
      ["unittests", "gis"] ∧
    triggeredNames ["xgboost_ames_housing", "Dockerfile"] =
      ["unittests", "xgboost"] ∧
    triggeredNames ["pytorch_mnist", "Dockerfile"] =
      ["unittests", "pytorch-mnist"] := by
  have h := prow_trigger_isolation.2.2 ["Dockerfile"] (by simp)
  exact ⟨h.1, h.2.1, h.2.2.1, h.2.2.2.1, h.2.2.2.2⟩

/-- C10: `read_synthetic_input` asks for exactly 200 samples with 5
features and splits them without shuffling: the training set is exactly the
first `floor((1 - test_size) * 200)` generated rows in order, the test set
exactly the remaining rows, the two counts always covering all 200 rows;
with the default `test_size = 0.25` this yields 150 training and 50 test
samples.  (The mean imputer is the identity here since `make_regression`
produces no missing values.) -/
theorem read_synthetic_input_split {Model : Type} (env : Env Model)
    (X : MatOpt) (y : Vec) (t : ℚ)
    (h0 : 0 < t) (h1 : t < 1)
    (hgen : env.make_regression 200 5 (1/10) = .ok (X, y))
    (hlen : X.length = 200) (hylen : y.length = 200)
    (hrows : ∀ row ∈ X, row.length = 5)
    (hall : ∀ row ∈ X, ∀ v ∈ row, v.isSome = true)
    (hk : 1 ≤ nTrain 200 t) :
    read_synthetic_input env t =
      .ok ((unwrapMat (X.take (nTrain 200 t)), y.take (nTrain 200 t)),
           (unwrapMat (X.drop (nTrain 200 t)), y.drop (nTrain 200 t)),
           [Eff.genData 200 5]) ∧
    nTrain 200 t + nTest 200 t = 200 ∧
    (t = 1/4 → nTrain 200 t = 150 ∧ nTest 200 t = 50) := by
  have hcounts : nTrain 200 t + nTest 200 t = 200 :=
    nTrain_add_nTest 200 t (le_of_lt h0) (le_of_lt h1)
  refine ⟨?_, hcounts, ?_⟩
  · rw [read_synthetic_input, hgen]
    dsimp only
    have hnot : ¬(t ≤ 0 ∨ 1 ≤ t) := by push_neg; exact ⟨h0, h1⟩
    have hsplit : train_test_split X y t =
        .ok (X.take (nTrain 200 t), X.drop (nTrain 200 t),
             y.take (nTrain 200 t), y.drop (nTrain 200 t)) := by
      rw [train_test_split, if_neg hnot]
      dsimp only
      rw [hlen]
      rw [if_neg (by omega)]
      have hdX : (X.drop (nTrain 200 t)).take (nTest 200 t) =
          X.drop (nTrain 200 t) :=
        List.take_of_length_le (by rw [List.length_drop, hlen]; omega)
      have hdY : (y.drop (nTrain 200 t)).take (nTest 200 t) =
          y.drop (nTrain 200 t) :=
        List.take_of_length_le (by rw [List.length_drop, hylen]; omega)
      rw [hdX, hdY]
    rw [hsplit]
    dsimp only
    -- the training split is nonempty, with an all-present first row
    have htne : X.take (nTrain 200 t) ≠ [] := by
      intro hnil
      have := congrArg List.length hnil
      rw [List.length_take, hlen] at this
      simp at this
      omega
    obtain ⟨r, tl, hXt⟩ := List.exists_cons_of_ne_nil htne
    have hrmem : r ∈ X.take (nTrain 200 t) := by rw [hXt]; simp
    have hrX : r ∈ X := List.take_subset _ _ hrmem
    have hstats : ∀ st ∈ imputerFit (X.take (nTrain 200 t)), st.isSome = true := by
      rw [hXt]
      exact imputerFit_all_some r tl (hall r hrX)
    have hstatslen : (imputerFit (X.take (nTrain 200 t))).length = 5 := by
      rw [imputerFit_length, hXt]
      exact hrows r hrX
    have htr : imputerTransform (imputerFit (X.take (nTrain 200 t)))
        (X.take (nTrain 200 t)) = unwrapMat (X.take (nTrain 200 t)) := by
      refine imputerTransform_all_some _ _ hstats ?_
      intro row hrow
      have hrowX : row ∈ X := List.take_subset _ _ hrow
      exact ⟨by rw [hstatslen, hrows row hrowX], hall row hrowX⟩
    have hte : imputerTransform (imputerFit (X.take (nTrain 200 t)))
        (X.drop (nTrain 200 t)) = unwrapMat (X.drop (nTrain 200 t)) := by
      refine imputerTransform_all_some _ _ hstats ?_
      intro row hrow
      have hrowX : row ∈ X := List.drop_subset _ _ hrow
      exact ⟨by rw [hstatslen, hrows row hrowX], hall row hrowX⟩
    rw [htr, hte]
  · intro ht
    subst ht
    exact ⟨nTrain_200, nTest_200⟩

/-- Witness for C10: on the concrete 200-row generated dataset the split is
the first 150 rows and the remaining 50, in order. -/
theorem read_synthetic_input_split_witness :
    (read_synthetic_input okEnv (1/4) =
      .ok ((unwrapMat (X200.take (nTrain 200 (1/4))), y200.take (nTrain 200 (1/4))),
           (unwrapMat (X200.drop (nTrain 200 (1/4))), y200.drop (nTrain 200 (1/4))),
           [Eff.genData 200 5])) ∧
    nTrain 200 (1/4) + nTest 200 (1/4) = 200 ∧
    ((1 : ℚ)/4 = 1/4 → nTrain 200 (1/4) = 150 ∧ nTest 200 (1/4) = 50) := by
  refine read_synthetic_input_split okEnv X200 y200 (1/4)
    (by norm_num) (by norm_num) rfl rfl rfl ?_ ?_ ?_
  · intro row hrow
    simp only [X200] at hrow
    rw [List.eq_of_mem_replicate hrow]
    rfl
  · intro row hrow v hv
    simp only [X200] at hrow
    rw [List.eq_of_mem_replicate hrow] at hv
    rw [List.eq_of_mem_replicate hv]
    rfl
  · rw [nTrain_200]
    norm_num
